import Mathlib

/-!
Shallow embedding of the metrics-derivation and chart-construction layer of
the work-order dashboard (src/dashboard.py and src/utils/visualization.py).

Numeric values are modelled as rationals (`ℚ`); pandas/NaN cells are modelled
explicitly where the source can produce them; the Python string round trip
`f"{v:.1f}%"` followed by stripping the percent sign and `pd.to_numeric` is modelled as
rounding to one decimal place with ties to even (the rounding mode of Python
float formatting).
-/

namespace WH3

/-! ### Generic list helpers (max, min, stable insertion sort) -/

/-- Maximum of a list of rationals (pandas `.max()`); the guard branches of the
chart builders ensure it is only applied to non-empty columns, so the value on
`[]` is irrelevant. -/
def qmax : List ℚ → ℚ
  | [] => 0
  | [x] => x
  | x :: y :: t => max x (qmax (y :: t))

/-- Minimum of a list of rationals (pandas `.min()`). -/
def qmin : List ℚ → ℚ
  | [] => 0
  | [x] => x
  | x :: y :: t => min x (qmin (y :: t))

/-- Insert `x` into `l` before the first element `y` with `le x y = true`. -/
def insertLe {α : Type} (le : α → α → Bool) (x : α) : List α → List α
  | [] => [x]
  | y :: ys => if le x y then x :: y :: ys else y :: insertLe le x ys

/-- Insertion sort; stable for the relation `le` (models `sort_values`). -/
def sortByLe {α : Type} (le : α → α → Bool) : List α → List α
  | [] => []
  | x :: xs => insertLe le x (sortByLe le xs)

/-! ### Rounding: the `f"{v:.1f}"` display round trip -/

/-- Round half to even, the rounding used by Python float formatting. -/
def rhe (q : ℚ) : ℤ :=
  let f := ⌊q⌋
  let r := q - f
  if r < 1/2 then f
  else if 1/2 < r then f + 1
  else if f % 2 = 0 then f else f + 1

/-- Round to one decimal place: the value carried by a `f"{v:.1f}%"` table
cell once the percent sign is stripped and the cell parsed back with `pd.to_numeric`. -/
def round1 (q : ℚ) : ℚ := (rhe (10 * q) : ℚ) / 10

/-! ### Dashboard yearly performance table (dashboard.py, lines 1040-1104)

A table row after the `astype(float)` conversion of dashboard.py line 1043.
`none` models a pandas null; the source guards both fields with `pd.notnull`.
-/

structure TRow where
  planned : Option ℚ
  actual : Option ℚ
deriving DecidableEq

/-- A parsed table-cell value: a number, or pandas `NaN` (the float that
`pd.to_numeric("nan")` yields, produced when a null propagates through the
`f"{v:.1f}%"` format). -/
inductive CellVal where
  | num (q : ℚ)
  | nan
deriving DecidableEq

/-- Column Efficiency of display_df (dashboard.py lines 1049-1053), as the parsed
value of the formatted cell: `planned/actual*100` rounded to one decimal when
both fields are non-null and `actual > 0`, else the literal `"0.0%"` cell. -/
def effCell (r : TRow) : ℚ :=
  match r.planned, r.actual with
  | some p, some a => if 0 < a then round1 (p / a * 100) else 0
  | _, _ => 0

/-- Column Overrun % of display_df (dashboard.py lines 1063-1068), as the parsed
value of the formatted cell.  The lambda checks only that `Planned` is
non-null and positive; a null `Actual` then propagates NaN through the
arithmetic and the format, giving a `"nan%"` cell. -/
def overrunCell (r : TRow) : CellVal :=
  match r.planned with
  | some p =>
      if 0 < p then
        match r.actual with
        | some a => .num (round1 ((a - p) / p * 100))
        | none => .nan
      else .num 0
  | none => .num 0

/-- The five values the `Trend` column can hold: the initial empty string
(dashboard.py line 1071) and the four arrow labels written by the loop. -/
inductive Trend where
  | blank
  | improved
  | declined
  | noChange
  | noData
deriving DecidableEq

/-- The spec reads the Trend column as a four-valued enum; a blank cell
carries no trend data, so it denotes `NoData`. -/
def trendMark : Trend → Trend
  | .blank => .noData
  | t => t

/-- Pandas `<` on parsed cells: comparisons against NaN are false. -/
def cellLt : CellVal → CellVal → Bool
  | .num a, .num b => decide (a < b)
  | _, _ => false

/-- Pandas `>` on parsed cells: comparisons against NaN are false. -/
def cellGt : CellVal → CellVal → Bool
  | .num a, .num b => decide (a > b)
  | _, _ => false

/-- One iteration of the trend loop (dashboard.py lines 1073-1084) given the
parsed current and previous `Overrun %` cells; `none` models the
`pd.to_numeric` coercion raising, which the `except` turns into the
`No Data` label. -/
def trendStep (cur prev : Option CellVal) : Trend :=
  match cur, prev with
  | some c, some p =>
      if cellLt c p then .improved
      else if cellGt c p then .declined
      else .noChange
  | _, _ => .noData

/-- Helper for `tableTrend`: trends of the remaining rows given the previous
row of the parsed `Overrun %` cells. -/
def tableTrendGo (prev : CellVal) : List TRow → List Trend
  | [] => []
  | r :: rs => trendStep (some (overrunCell r)) (some prev) :: tableTrendGo (overrunCell r) rs

/-- Column Trend of display_df (dashboard.py lines 1071-1084): the first row keeps
the initial empty string; each later row compares its parsed `Overrun %` cell
with the cell of the previous row. -/
def tableTrend : List TRow → List Trend
  | [] => []
  | r :: rs => .blank :: tableTrendGo (overrunCell r) rs

/-- The six values of the `Key Insight` column (dashboard.py lines 1087-1104). -/
inductive Insight where
  | excellent
  | good
  | average
  | significantOverrun
  | needsImprovement
  | insufficientData
deriving DecidableEq

/-- Pandas `>` against a numeric literal: false for NaN. -/
def cellGtNum (c : CellVal) (t : ℚ) : Bool :=
  match c with
  | .num q => decide (t < q)
  | .nan => false

/-- One iteration of the insight loop (dashboard.py lines 1089-1104) given the
parsed `Efficiency` and `Overrun %` cells; `none` models a coercion exception,
caught and mapped to `Insufficient data`. -/
def insightStep (e o : Option CellVal) : Insight :=
  match e, o with
  | some e, some o =>
      if cellGtNum e 95 then .excellent
      else if cellGtNum e 90 then .good
      else if cellGtNum e 80 then .average
      else if cellGtNum o 25 then .significantOverrun
      else .needsImprovement
  | _, _ => .insufficientData

/-- Column Key Insight of display_df: the loop applies `insightStep` to the
parsed `Efficiency` and `Overrun %` cells of each row. -/
def tableInsight (rows : List TRow) : List Insight :=
  rows.map (fun r => insightStep (some (.num (effCell r))) (some (overrunCell r)))

/-! ### Efficiency breakdown donut (dashboard.py, `create_enhanced_efficiency_chart`,
lines 183-248) -/

/-- Source: `total_overrun = max(0, total_actual - total_planned)` (line 186). -/
def chartOverrun (p a : ℚ) : ℚ := max 0 (a - p)

/-- Source: `total_underrun = max(0, total_planned - total_actual)` (line 187). -/
def chartUnderrun (p a : ℚ) : ℚ := max 0 (p - a)

/-- Source: `on_target = total_planned - total_overrun - total_underrun` (line 188). -/
def chartOnTarget (p a : ℚ) : ℚ := p - chartOverrun p a - chartUnderrun p a

/-- Value `on_target_pct` (lines 191-198): guarded by `total_planned > 0`, else 0. -/
def onTargetPct (p a : ℚ) : ℚ :=
  if 0 < p then chartOnTarget p a / p * 100 else 0

/-- Value `overrun_pct` of the donut (lines 191-198). -/
def donutOverrunPct (p a : ℚ) : ℚ :=
  if 0 < p then chartOverrun p a / p * 100 else 0

/-- Value `underrun_pct` of the donut (lines 191-198). -/
def donutUnderrunPct (p a : ℚ) : ℚ :=
  if 0 < p then chartUnderrun p a / p * 100 else 0

/-- The value shown by the center annotation `f"{total_efficiency:.1f}%"`
(line 241): `on_target_pct` rounded to one decimal place. -/
def centerLabelVal (p a : ℚ) : ℚ := round1 (onTargetPct p a)

/-- Center-text color (line 227): green if strictly above 80, red if strictly
below 60, else the neutral yellow. -/
def tierOf (e : ℚ) : String :=
  if 80 < e then "#38b000" else if e < 60 then "#e5383b" else "#f9c74f"

/-- The donut spec: segment values `[on_target, overrun, underrun]`
(line 207), the percentage labels, the center label and its color. -/
structure DonutSpec where
  values : List ℚ
  pcts : List ℚ
  centerLabel : ℚ
  textColor : String
deriving DecidableEq

/-- Builder `create_enhanced_efficiency_chart(total_planned, total_actual)`. -/
def create_enhanced_efficiency_chart (p a : ℚ) : DonutSpec :=
  { values := [chartOnTarget p a, chartOverrun p a, chartUnderrun p a]
    pcts := [onTargetPct p a, donutOverrunPct p a, donutUnderrunPct p a]
    centerLabel := centerLabelVal p a
    textColor := tierOf (onTargetPct p a) }

/-! ### Yearly trends chart (visualization.py, `create_yearly_trends_chart`,
lines 6-127) -/

/-- A row of the `yearly_df` input frame; `none` models a pandas null. -/
structure YRow where
  year : Int
  planned : Option ℚ
  actual : Option ℚ
  overrun : Option ℚ
deriving DecidableEq

/-- The input frame: which columns exist, and the rows. -/
structure YearlyDF where
  hasYear : Bool
  hasPlanned : Bool
  hasActual : Bool
  hasOverrun : Bool
  rows : List YRow
deriving DecidableEq

/-- The cleaning loop (lines 17-20): `fillna(0)` then floor at 0. -/
def cleanHours (x : Option ℚ) : ℚ := max (x.getD 0) 0

/-- The data of a built yearly chart: series (in sorted year order), and the
primary and secondary axis ranges. -/
structure YearlyChartData where
  years : List Int
  planned : List ℚ
  actual : List ℚ
  overrun : List ℚ
  cost : List ℚ
  primaryRange : ℚ × ℚ
  secondaryRange : ℚ × ℚ
deriving DecidableEq

/-- A chart-builder result: a placeholder figure with a single text
annotation and a fixed height, or a populated chart. -/
inductive YearlyChart where
  | placeholder (text : String) (height : Nat)
  | chart (d : YearlyChartData)
deriving DecidableEq

/-- Builder `create_yearly_trends_chart(yearly_df)`.  The guard (line 9) checks
emptiness and the columns `year`, `planned_hours`, `actual_hours` only;
line 25 then indexes `plot_df["overrun_hours"]` unconditionally, so a
non-empty frame without that column raises a `KeyError` (modelled as
`Except.error`).  The per-row cleaning (lines 17-20) commutes with the sort
by year (line 28), so the sorted rows are cleaned column-wise here.  The
chart data built by the non-placeholder branch (lines 15-127): -/
def yearlyDataOf (df : YearlyDF) : YearlyChartData :=
  let sorted := sortByLe (fun x y => decide (x.year ≤ y.year)) df.rows
  let planned := sorted.map (fun r => cleanHours r.planned)
  let actual := sorted.map (fun r => cleanHours r.actual)
  let overrun := sorted.map (fun r => cleanHours r.overrun)
  let cost := overrun.map (fun x => x * 199)
  let maxHours := max (qmax planned) (qmax actual)
  let yMax := maxHours * (6/5)
  let maxCost := qmax cost
  let minCost := qmin cost
  let costRange := max |maxCost| |minCost| * (6/5)
  { years := sorted.map (fun r => r.year)
    planned := planned
    actual := actual
    overrun := overrun
    cost := cost
    primaryRange := (0, yMax)
    secondaryRange := (if minCost < 0 then -costRange else 0, costRange) }

def create_yearly_trends_chart (df : YearlyDF) : Except String YearlyChart :=
  if df.rows.isEmpty || !(df.hasYear && df.hasPlanned && df.hasActual) then
    .ok (.placeholder "No yearly data available" 400)
  else if !df.hasOverrun then
    .error "KeyError: overrun_hours"
  else
    .ok (.chart (yearlyDataOf df))

/-- The overrun-cost series of a yearly chart result (empty for a
placeholder or an error). -/
def yearlyCostOf : Except String YearlyChart → List ℚ
  | .ok (.chart d) => d.cost
  | _ => []

/-- The primary (hours) axis range of a yearly chart result. -/
def yearlyPrimaryOf : Except String YearlyChart → ℚ × ℚ
  | .ok (.chart d) => d.primaryRange
  | _ => (0, 0)

/-- The secondary (cost) axis range of a yearly chart result. -/
def yearlySecondaryOf : Except String YearlyChart → ℚ × ℚ
  | .ok (.chart d) => d.secondaryRange
  | _ => (0, 0)

/-! ### Customer profit chart (visualization.py, `create_customer_profit_chart`,
lines 129-181) -/

/-- A row of the customer-profit input; `none` models a pandas null. -/
structure CPRow where
  name : String
  profitability : Option ℚ
  actual : Option ℚ
  overrun : Option ℚ
deriving DecidableEq

/-- The customer-profit input frame. -/
structure CPDF where
  hasProfitability : Bool
  hasActual : Bool
  hasOverrun : Bool
  rows : List CPRow
deriving DecidableEq

/-- Result of the customer-profit builder. -/
inductive CPChart where
  | placeholder (text : String) (height : Nat)
  | chart (rows : List CPRow)
deriving DecidableEq

/-- Ascending order on optional profitability, nulls last (pandas
`sort_values` default `na_position` is `last`; the source sorts before
filling nulls, line 137). -/
def cpLe (x y : CPRow) : Bool :=
  match x.profitability, y.profitability with
  | some a, some b => decide (a ≤ b)
  | some _, none => true
  | none, some _ => false
  | none, none => true

/-- Builder `create_customer_profit_chart(customer_data)`: placeholder when the frame
is empty or any of `profitability`, `actual_hours`, `overrun_hours` is
missing (line 132); otherwise sort ascending by profitability and fill nulls
with 0 (lines 137-139). -/
def create_customer_profit_chart (df : CPDF) : CPChart :=
  if df.rows.isEmpty || !(df.hasProfitability && df.hasActual && df.hasOverrun) then
    .placeholder "No customer data available" 400
  else
    let sorted := sortByLe cpLe df.rows
    let filled := sorted.map (fun r =>
      { r with
        profitability := some (r.profitability.getD 0)
        actual := some (r.actual.getD 0)
        overrun := some (r.overrun.getD 0) })
    .chart filled

/-! ### Work-center breakdown chart (visualization.py, `create_workcenter_chart`,
lines 183-217) -/

/-- A row of the work-center input; `none` models a pandas null. -/
structure WRow where
  work_center : String
  planned : Option ℚ
  actual : Option ℚ
  overrun : Option ℚ
deriving DecidableEq

/-- The work-center input frame. -/
structure WCDF where
  hasWC : Bool
  hasPlanned : Bool
  hasActual : Bool
  hasOverrun : Bool
  rows : List WRow
deriving DecidableEq

/-- Result of the work-center breakdown builder. -/
inductive WCChart where
  | placeholder (text : String) (height : Nat)
  | chart (rows : List WRow)
deriving DecidableEq

/-- Descending order on optional actual hours, nulls last (the source sorts
before filling nulls, line 190). -/
def wcDescActual (x y : WRow) : Bool :=
  match x.actual, y.actual with
  | some a, some b => decide (b ≤ a)
  | some _, none => true
  | none, some _ => false
  | none, none => true

/-- Builder `create_workcenter_chart(workcenter_df)`: placeholder when empty or any of
`work_center`, `planned_hours`, `actual_hours`, `overrun_hours` is missing
(line 185); otherwise sort descending by actual hours, then fill nulls with 0
and floor every hour column at 0 (lines 190-193). -/
def create_workcenter_chart (df : WCDF) : WCChart :=
  if df.rows.isEmpty || !(df.hasWC && df.hasPlanned && df.hasActual && df.hasOverrun) then
    .placeholder "No work center data available" 400
  else
    let sorted := sortByLe wcDescActual df.rows
    let filled := sorted.map (fun r =>
      { r with
        planned := some (cleanHours r.planned)
        actual := some (cleanHours r.actual)
        overrun := some (cleanHours r.overrun) })
    .chart filled

/-! ### Simplified customer chart (visualization.py,
`create_simplified_customer_chart`, lines 219-369).  The docstring advertises
two input types, a list of dicts and a pandas DataFrame, dispatched by the
`isinstance` at lines 240-243; both are modelled.  For a DataFrame argument
the guard `not customer_data` at line 233 calls its truth value, which pandas
refuses with a ValueError, so that branch raises before any dispatch. -/

/-- A row of the customer input once turned into a frame. -/
structure CRow where
  name : String
  year : Int
  efficiency : ℚ
  profitability : ℚ
  planned : ℚ
  actual : ℚ
deriving DecidableEq

/-- The customer frame: which columns exist, and the rows.  A field of a row
whose column flag is false is never read by the builder. -/
structure CustDF where
  hasYear : Bool
  hasEfficiency : Bool
  hasProfitability : Bool
  hasPlanned : Bool
  hasActual : Bool
  rows : List CRow
deriving DecidableEq

/-- The three values the `sort_by` argument is compared against (line 274). -/
inductive CustSortKey where
  | efficiency
  | planned_hours
  | profitability
deriving DecidableEq

/-- Result of the simplified customer builder: a placeholder, or the final
truncated frame together with which series exist. -/
inductive CustChart where
  | placeholder (text : String) (height : Nat)
  | chart (rows : List CRow) (hasEff hasPlanned hasActual : Bool)
deriving DecidableEq

/-- Per-row efficiency when the column is absent (lines 260-264):
`planned/actual*100` when `actual > 0`, else 100. -/
def custEfficiency (p a : ℚ) : ℚ :=
  if 0 < a then p / a * 100 else 100

/-- Per-row profitability when the column is absent (lines 266-271):
`(planned-actual)/planned*100` when `planned > 0`, else 0. -/
def custProfitability (p a : ℚ) : ℚ :=
  if 0 < p then (p - a) / p * 100 else 0

/-- The year filter (lines 246-250): applied only when a year is selected and
the frame has a `year` column (the `operation_finish_date` fallback needs a
column this input shape does not carry). -/
def yearFiltered (df : CustDF) (yf : Option Int) : List CRow :=
  match yf with
  | none => df.rows
  | some y => if df.hasYear then df.rows.filter (fun r => r.year = y) else df.rows

/-- The derived columns of the simplified customer chart (lines 259-271):
`efficiency` and `profitability` are computed only when absent and both hour
columns are present. -/
def custDerivedRows (df : CustDF) (rows1 : List CRow) : List CRow :=
  let rows2 :=
    if !df.hasEfficiency && df.hasPlanned && df.hasActual then
      rows1.map (fun r => { r with efficiency := custEfficiency r.planned r.actual })
    else rows1
  if !df.hasProfitability && df.hasPlanned && df.hasActual then
    rows2.map (fun r => { r with profitability := custProfitability r.planned r.actual })
  else rows2

/-- The sort step of the simplified customer chart (lines 273-279):
descending by the requested key, skipped when the column of that key is absent. -/
def custSortedRows (df : CustDF) (sk : CustSortKey) (rows3 : List CRow) : List CRow :=
  match sk with
  | .efficiency =>
      if df.hasEfficiency || (df.hasPlanned && df.hasActual) then
        sortByLe (fun x y => decide (y.efficiency ≤ x.efficiency)) rows3
      else rows3
  | .planned_hours =>
      if df.hasPlanned then sortByLe (fun x y => decide (y.planned ≤ x.planned)) rows3
      else rows3
  | .profitability =>
      if df.hasProfitability || (df.hasPlanned && df.hasActual) then
        sortByLe (fun x y => decide (y.profitability ≤ x.profitability)) rows3
      else rows3

/-- The processing applied to a list-of-dicts argument (the
`isinstance(customer_data, list)` branch of lines 240-243 turns the list
into the frame, and lines 245-369 build the chart from it). -/
def custListChart (df : CustDF) (yf : Option Int)
    (sk : CustSortKey) (max_customers : Nat := 8) : CustChart :=
  if df.rows.isEmpty then
    .placeholder "No customer data available" 400
  else
    let rows1 := yearFiltered df yf
    if rows1.isEmpty then
      .placeholder ("No customer data available for " ++
        (match yf with | some y => toString y | none => "All Years")) 400
    else
      let rows4 := custSortedRows df sk (custDerivedRows df rows1)
      let rows5 := if max_customers < rows4.length then rows4.take max_customers else rows4
      .chart rows5 (df.hasEfficiency || (df.hasPlanned && df.hasActual))
        df.hasPlanned df.hasActual

/-- A runtime argument to the simplified customer builder: the docstring
advertises both a list of dicts and a pandas DataFrame. -/
inductive CustData where
  | ofList (df : CustDF)
  | ofFrame (df : CustDF)
deriving DecidableEq

/-- Builder `create_simplified_customer_chart(customer_data, year_filter,
sort_by, max_customers)`; `max_customers` defaults to 8 (line 219).  The
guard `not customer_data or len(customer_data) == 0` (line 233) evaluates
the truth value of the argument first: for an empty list it yields the
placeholder, for a non-empty list the chart is built, and for a pandas
DataFrame — empty or not — pandas raises
`ValueError: The truth value of a DataFrame is ambiguous`, modelled as
`Except.error`, before the `isinstance` dispatch is reached. -/
def create_simplified_customer_chart (data : CustData) (yf : Option Int)
    (sk : CustSortKey) (max_customers : Nat := 8) : Except String CustChart :=
  match data with
  | .ofFrame _ => .error "ValueError: The truth value of a DataFrame is ambiguous"
  | .ofList df => .ok (custListChart df yf sk max_customers)

/-- The number of customer entries a simplified customer chart result
displays (none for a placeholder or a raised error). -/
def custChartSize : Except String CustChart → Nat
  | .ok (.chart rows _ _ _) => rows.length
  | _ => 0

/-! ### Work-center ROI chart (visualization.py, `create_workcenter_roi_chart`,
lines 371-531) -/

/-- A row of the ROI chart once the derived columns exist. -/
structure RoiRow where
  work_center : String
  planned : ℚ
  actual : ℚ
  overrun_percent : ℚ
  efficiency : ℚ
deriving DecidableEq

/-- The three values the `sort_by` argument is compared against (line 418). -/
inductive RoiSortKey where
  | overrun_percent
  | utilization
  | total_hours
deriving DecidableEq

/-- Result of the ROI builder: a placeholder, or the sorted rows, whether the
overrun-percent bars exist, and their colors. -/
inductive RoiChart where
  | placeholder (text : String) (height : Nat)
  | chart (rows : List RoiRow) (present : Bool) (barColors : List String)
deriving DecidableEq

/-- Column `overrun_percent` derivation (lines 399-403):
`(actual-planned)/planned*100` when `planned > 0`, else 0. -/
def roiOverrunPercent (p a : ℚ) : ℚ :=
  if 0 < p then (a - p) / p * 100 else 0

/-- Column `efficiency` derivation (lines 406-409): `planned/actual*100` when
`actual > 0`, else 100. -/
def wcEfficiency (p a : ℚ) : ℚ :=
  if 0 < a then p / a * 100 else 100

/-- Bar color for an overrun-percent value (lines 431-433): green when at
most 0, orange when strictly between 0 and 15, red from 15 upward. -/
def roiBarColor (x : ℚ) : String :=
  if x ≤ 0 then "#22c55e" else if x < 15 then "#f97316" else "#dc2626"

/-- Column `utilization` (lines 412-415): `actual / sum(actual) * 100`.  A zero
total makes pandas produce a non-finite float; it is modelled by the rational
convention `a / 0 = 0`, which no claim exercises. -/
def roiUtilization (total a : ℚ) : ℚ := a / total * 100

/-- Builder `create_workcenter_roi_chart(workcenter_df, sort_by)`.  Placeholder when
the frame is empty (line 382); numeric nulls are filled with 0 (lines
392-394, no flooring here); the derived columns exist only when both
`planned_hours` and `actual_hours` are present (line 397). -/
def create_workcenter_roi_chart (df : WCDF) (sk : RoiSortKey) : RoiChart :=
  if df.rows.isEmpty then
    .placeholder "No work center data available" 400
  else
    let filled := df.rows.map (fun r =>
      (r.work_center, r.planned.getD 0, r.actual.getD 0))
    let total := (filled.map (fun t => t.2.2)).foldr (· + ·) 0
    if df.hasPlanned && df.hasActual then
      let derived := filled.map (fun t =>
        RoiRow.mk t.1 t.2.1 t.2.2 (roiOverrunPercent t.2.1 t.2.2) (wcEfficiency t.2.1 t.2.2))
      let sorted :=
        match sk with
        | .overrun_percent =>
            sortByLe (fun x y => decide (y.overrun_percent ≤ x.overrun_percent)) derived
        | .utilization =>
            if df.hasActual then
              sortByLe (fun x y =>
                decide (roiUtilization total y.actual ≤ roiUtilization total x.actual)) derived
            else derived
        | .total_hours =>
            if df.hasActual then
              sortByLe (fun x y => decide (y.actual ≤ x.actual)) derived
            else derived
      .chart sorted true (sorted.map (fun r => roiBarColor r.overrun_percent))
    else
      let plain := filled.map (fun t => RoiRow.mk t.1 t.2.1 t.2.2 0 0)
      let sorted :=
        match sk with
        | .overrun_percent => plain
        | .utilization =>
            if df.hasActual then
              sortByLe (fun x y =>
                decide (roiUtilization total y.actual ≤ roiUtilization total x.actual)) plain
            else plain
        | .total_hours =>
            if df.hasActual then
              sortByLe (fun x y => decide (y.actual ≤ x.actual)) plain
            else plain
      .chart sorted false []

/-- The bar colors of an ROI chart result. -/
def roiColorsOf : RoiChart → List String
  | .placeholder _ _ => []
  | .chart _ _ colors => colors

/-- The overrun-percent values of the bars of an ROI chart result (empty when
the bar series does not exist). -/
def roiPercentsOf : RoiChart → List ℚ
  | .placeholder _ _ => []
  | .chart rows present _ => if present then rows.map (fun r => r.overrun_percent) else []

/-! ### Concrete inputs used by the examples -/

/-- The end-to-end example input of spec section 8.6: rows
(2022, planned 1000, actual 1100, overrun 100) and
(2023, planned 1200, actual 1150, overrun -50). -/
def exYearlyDF : YearlyDF :=
  { hasYear := true, hasPlanned := true, hasActual := true, hasOverrun := true
    rows := [ { year := 2022, planned := some 1000, actual := some 1100, overrun := some 100 }
            , { year := 2023, planned := some 1200, actual := some 1150, overrun := some (-50) } ] }

/-- The yearly chart the builder produces on `exYearlyDF`. -/
def exYearlyData : YearlyChartData :=
  { years := [2022, 2023]
    planned := [1000, 1200]
    actual := [1100, 1150]
    overrun := [100, 0]
    cost := [19900, 0]
    primaryRange := (0, 1440)
    secondaryRange := (0, 23880) }

/-- A non-empty yearly frame that has the three guard-checked columns but no
`overrun_hours` column. -/
def exMissingOverrunDF : YearlyDF :=
  { hasYear := true, hasPlanned := true, hasActual := true, hasOverrun := false
    rows := [ { year := 2022, planned := some 10, actual := some 12, overrun := none } ] }

/-- An empty yearly frame with all columns present. -/
def emptyYearlyDF : YearlyDF :=
  { hasYear := true, hasPlanned := true, hasActual := true, hasOverrun := true, rows := [] }

/-- An empty customer-profit frame with all columns present. -/
def emptyCPDF : CPDF :=
  { hasProfitability := true, hasActual := true, hasOverrun := true, rows := [] }

/-- An empty work-center frame with all columns present. -/
def emptyWCDF : WCDF :=
  { hasWC := true, hasPlanned := true, hasActual := true, hasOverrun := true, rows := [] }

/-- An empty customer frame with all columns present. -/
def emptyCustDF : CustDF :=
  { hasYear := true, hasEfficiency := true, hasProfitability := true
    hasPlanned := true, hasActual := true, rows := [] }

/-- A customer frame with 15 identical rows, all columns present. -/
def cust15DF : CustDF :=
  { hasYear := false, hasEfficiency := true, hasProfitability := true
    hasPlanned := true, hasActual := true
    rows := List.replicate 15
      { name := "c", year := 0, efficiency := 1, profitability := 0, planned := 2, actual := 3 } }

/-! ## Helper lemmas -/

theorem insertLe_length {α : Type} (le : α → α → Bool) (x : α) (l : List α) :
    (insertLe le x l).length = l.length + 1 := by
  induction l with
  | nil => rfl
  | cons y ys ih =>
    simp only [insertLe]
    by_cases h : le x y = true
    · simp [h]
    · simp [h, ih]

theorem sortByLe_length {α : Type} (le : α → α → Bool) (l : List α) :
    (sortByLe le l).length = l.length := by
  induction l with
  | nil => rfl
  | cons x xs ih => simp [sortByLe, insertLe_length, ih]

theorem qmin_nonneg (l : List ℚ) (h : ∀ x ∈ l, 0 ≤ x) : 0 ≤ qmin l := by
  induction l with
  | nil => simp [qmin]
  | cons x xs ih =>
    cases xs with
    | nil => exact h x (by simp)
    | cons y t =>
      simp only [qmin, le_min_iff]
      refine ⟨h x (by simp), ih ?_⟩
      intro z hz
      exact h z (by simp [hz])

theorem cleanHours_nonneg (x : Option ℚ) : 0 ≤ cleanHours x := le_max_right _ _

/-- The yearly builder on the section-8.6 example input: full evaluation. -/
theorem exYearly_eval :
    create_yearly_trends_chart exYearlyDF = Except.ok (YearlyChart.chart exYearlyData) := by
  norm_num [create_yearly_trends_chart, yearlyDataOf, exYearlyDF, exYearlyData, sortByLe,
    insertLe, cleanHours, qmax, qmin, max_def, min_def, abs]

/-- What the chart branch of the yearly builder guarantees: the cost series
is the cleaned overrun series times the burden rate 199, every cost is
non-negative, and both axis ranges have the stated closed forms with a lower
cost bound of 0. -/
theorem yearlyDataOf_fields (df : YearlyDF) :
    (yearlyDataOf df).overrun =
      (sortByLe (fun x y => decide (x.year ≤ y.year)) df.rows).map
        (fun r => cleanHours r.overrun) ∧
    (yearlyDataOf df).cost = (yearlyDataOf df).overrun.map (fun x => x * 199) ∧
    (yearlyDataOf df).primaryRange =
      (0, max (qmax (yearlyDataOf df).planned) (qmax (yearlyDataOf df).actual) * (6/5)) ∧
    (yearlyDataOf df).secondaryRange =
      (if qmin (yearlyDataOf df).cost < 0 then
          -(max |qmax (yearlyDataOf df).cost| |qmin (yearlyDataOf df).cost| * (6/5))
        else 0,
       max |qmax (yearlyDataOf df).cost| |qmin (yearlyDataOf df).cost| * (6/5)) := by
  refine ⟨rfl, rfl, rfl, rfl⟩

theorem yearlyDataOf_cost_nonneg (df : YearlyDF) : ∀ c ∈ (yearlyDataOf df).cost, 0 ≤ c := by
  intro c hc
  rw [(yearlyDataOf_fields df).2.1, (yearlyDataOf_fields df).1] at hc
  simp only [List.mem_map] at hc
  obtain ⟨x, hx, rfl⟩ := hc
  obtain ⟨r, _, rfl⟩ := hx
  exact mul_nonneg (cleanHours_nonneg _) (by norm_num)

theorem yearly_chart_branch (df : YearlyDF) (d : YearlyChartData)
    (h : create_yearly_trends_chart df = Except.ok (YearlyChart.chart d)) :
    d.cost = d.overrun.map (fun x => x * 199) ∧
    (∀ c ∈ d.cost, 0 ≤ c) ∧
    d.primaryRange = (0, max (qmax d.planned) (qmax d.actual) * (6/5)) ∧
    d.secondaryRange = (0, max |qmax d.cost| |qmin d.cost| * (6/5)) := by
  unfold create_yearly_trends_chart at h
  split at h
  · simp at h
  · split at h
    · simp at h
    · simp only [Except.ok.injEq, YearlyChart.chart.injEq] at h
      subst h
      have hnn := yearlyDataOf_cost_nonneg df
      have hmin : 0 ≤ qmin (yearlyDataOf df).cost := qmin_nonneg _ hnn
      refine ⟨(yearlyDataOf_fields df).2.1, hnn, (yearlyDataOf_fields df).2.2.1, ?_⟩
      rw [(yearlyDataOf_fields df).2.2.2, if_neg (not_lt.mpr hmin)]

theorem custDerivedRows_length (df : CustDF) (rows1 : List CRow) :
    (custDerivedRows df rows1).length = rows1.length := by
  unfold custDerivedRows
  split <;> split <;> simp

theorem custSortedRows_length (df : CustDF) (sk : CustSortKey) (rows3 : List CRow) :
    (custSortedRows df sk rows3).length = rows3.length := by
  cases sk <;> (simp only [custSortedRows]; split <;> simp [sortByLe_length])

theorem tableTrendGo_eq_zipWith (rs : List TRow) : ∀ r : TRow,
    tableTrendGo (overrunCell r) rs =
      List.zipWith (fun cur prev => trendStep (some (overrunCell cur)) (some (overrunCell prev)))
        rs (r :: rs) := by
  induction rs with
  | nil => intro r; rfl
  | cons r2 t ih =>
    intro r
    simp only [tableTrendGo, List.zipWith]
    exact congrArg _ (ih r2)

/-! ## Claim theorems -/

/-- C3 (confirmed): in the yearly performance table, the trend cell of the
first row keeps the initial blank, which the four-valued trend enum of the
spec reads as `NoData`; the trend of every later row is the step function
applied to its own and the previous parsed overrun-percent cells; on two numeric cells the
step yields `Improved` iff the current value is strictly lower, `Declined`
iff strictly higher, `NoChange` iff equal; and a cell whose numeric coercion
fails yields `NoData`. -/
theorem claim3_trend_classification :
    (∀ (r : TRow) (rs : List TRow),
        (tableTrend (r :: rs)).head? = some Trend.blank ∧ trendMark Trend.blank = Trend.noData) ∧
    (∀ (r : TRow) (rs : List TRow),
        tableTrend (r :: rs) =
          Trend.blank ::
            List.zipWith
              (fun cur prev => trendStep (some (overrunCell cur)) (some (overrunCell prev)))
              rs (r :: rs)) ∧
    (∀ c p : ℚ,
        (trendStep (some (.num c)) (some (.num p)) = Trend.improved ↔ c < p) ∧
        (trendStep (some (.num c)) (some (.num p)) = Trend.declined ↔ p < c) ∧
        (trendStep (some (.num c)) (some (.num p)) = Trend.noChange ↔ c = p)) ∧
    (∀ x : Option CellVal, trendStep none x = Trend.noData ∧ trendStep x none = Trend.noData) := by
  refine ⟨?_, ?_, ?_, ?_⟩
  · intro r rs; exact ⟨rfl, rfl⟩
  · intro r rs
    simp only [tableTrend]
    exact congrArg _ (tableTrendGo_eq_zipWith rs r)
  · intro c p
    simp only [trendStep, cellLt, cellGt, gt_iff_lt]
    rcases lt_trichotomy c p with h | h | h
    · simp [h, not_lt.mpr (le_of_lt h), ne_of_lt h]
    · simp [h, lt_irrefl]
    · simp [not_lt.mpr (le_of_lt h), h, ne_of_gt h]
  · intro x
    constructor
    · rfl
    · cases x <;> rfl

/-- C4 (confirmed): the insight column applies, row by row, an ordered
first-match-wins decision list to the parsed efficiency and overrun-percent
cells: efficiency above 95 is `Excellent`, else above 90 `Good`, else above
80 `Average`, else overrun above 25 `Significant overruns`, else
`Needs improvement`; a failed numeric coercion yields `Insufficient data`,
so every row maps to exactly one label. -/
theorem claim4_insight_decision_list :
    (∀ rows : List TRow,
        tableInsight rows =
          rows.map (fun r => insightStep (some (.num (effCell r))) (some (overrunCell r)))) ∧
    (∀ e o : ℚ,
        (insightStep (some (.num e)) (some (.num o)) = Insight.excellent ↔ 95 < e) ∧
        (insightStep (some (.num e)) (some (.num o)) = Insight.good ↔ e ≤ 95 ∧ 90 < e) ∧
        (insightStep (some (.num e)) (some (.num o)) = Insight.average ↔ e ≤ 90 ∧ 80 < e) ∧
        (insightStep (some (.num e)) (some (.num o)) = Insight.significantOverrun ↔
          e ≤ 80 ∧ 25 < o) ∧
        (insightStep (some (.num e)) (some (.num o)) = Insight.needsImprovement ↔
          e ≤ 80 ∧ o ≤ 25)) ∧
    (∀ x : Option CellVal,
        insightStep none x = Insight.insufficientData ∧
        insightStep x none = Insight.insufficientData) := by
  refine ⟨fun rows => rfl, ?_, ?_⟩
  · intro e o
    simp only [insightStep, cellGtNum, decide_eq_true_eq]
    by_cases h95 : 95 < e
    · have h90 : 90 < e := lt_trans (by norm_num) h95
      have h80 : 80 < e := lt_trans (by norm_num) h95
      simp [h95, not_le.mpr h95, not_le.mpr h90, not_le.mpr h80]
    · by_cases h90 : 90 < e
      · have h80 : 80 < e := lt_trans (by norm_num) h90
        simp [h95, h90, not_le.mpr h90, not_le.mpr h80, le_of_not_lt h95]
      · by_cases h80 : 80 < e
        · simp [h95, h90, h80, not_le.mpr h80, le_of_not_lt h95, le_of_not_lt h90]
        · by_cases h25 : 25 < o
          · simp [h95, h90, h80, h25, le_of_not_lt h80, not_le.mpr h25]
          · simp [h95, h90, h80, h25, le_of_not_lt h80, le_of_not_lt h25]
  · intro x
    constructor
    · rfl
    · cases x <;> rfl

/-- C1 counterexample: the efficiency cell of the yearly performance table
for a row with planned 500 and actual 0 reads 0.0%, not 100.0%: the claimed
rule that actual = 0 implies efficiency 100 fails at the dashboard table. -/
theorem claim1_counterexample :
    effCell { planned := some 500, actual := some 0 } = 0 ∧
    effCell { planned := some 500, actual := some 0 } ≠ 100 := by
  constructor
  · simp [effCell]
  · simp [effCell]

/-- C1 (amended): the customer chart and the work-center ROI chart derive
efficiency `planned/actual*100` when `actual > 0` and `100` when
`actual = 0`; the yearly performance table in dashboard.py derives the same
quotient (rounded to one decimal for display) when `actual > 0` but shows
`0.0%`, not `100.0%`, when `actual = 0`. -/
theorem claim1_efficiency_policy :
    (∀ p : ℚ, custEfficiency p 0 = 100) ∧
    (∀ p : ℚ, wcEfficiency p 0 = 100) ∧
    (∀ p a : ℚ, 0 < a →
        custEfficiency p a = p / a * 100 ∧ wcEfficiency p a = p / a * 100) ∧
    (∀ p : ℚ, effCell { planned := some p, actual := some 0 } = 0) ∧
    (∀ p a : ℚ, 0 < a →
        effCell { planned := some p, actual := some a } = round1 (p / a * 100)) := by
  refine ⟨?_, ?_, ?_, ?_, ?_⟩
  · intro p; simp [custEfficiency]
  · intro p; simp [wcEfficiency]
  · intro p a ha; simp [custEfficiency, wcEfficiency, ha]
  · intro p; simp [effCell]
  · intro p a ha; simp [effCell, ha]

/-- C1 witness: the amended C1 instantiated at actual 200 and at actual 0. -/
theorem claim1_witness :
    custEfficiency 50 0 = 100 ∧
    ((0:ℚ) < 200 ∧ custEfficiency 50 200 = 50 / 200 * 100) ∧
    effCell { planned := some 50, actual := some 200 } = round1 (50 / 200 * 100) := by
  have h : (0:ℚ) < 200 := by norm_num
  exact ⟨claim1_efficiency_policy.1 50,
         ⟨h, (claim1_efficiency_policy.2.2.1 50 200 h).1⟩,
         claim1_efficiency_policy.2.2.2.2 50 200 h⟩

/-- C7 (confirmed): the efficiency donut computes
`overrun = max(0, actual-planned)`, `underrun = max(0, planned-actual)`,
`on_target = planned - overrun - underrun` (equivalently `planned - |actual -
planned|`); the center color is strictly three-tiered (above 80 green, below
60 red, else neutral); and on planned 1000, actual 1200 the segments are
on-target 800, overrun 200, underrun 0 with center label 80.0% in the
neutral tier. -/
theorem claim7_efficiency_donut :
    (∀ p a : ℚ,
        chartOverrun p a = max 0 (a - p) ∧
        chartUnderrun p a = max 0 (p - a) ∧
        chartOnTarget p a = p - chartOverrun p a - chartUnderrun p a ∧
        chartOnTarget p a = p - |a - p|) ∧
    (∀ x : ℚ,
        (tierOf x = "#38b000" ↔ 80 < x) ∧
        (tierOf x = "#e5383b" ↔ x < 60) ∧
        (tierOf x = "#f9c74f" ↔ 60 ≤ x ∧ x ≤ 80)) ∧
    (create_enhanced_efficiency_chart 1000 1200).values = [800, 200, 0] ∧
    (create_enhanced_efficiency_chart 1000 1200).centerLabel = 80 ∧
    (create_enhanced_efficiency_chart 1000 1200).textColor = "#f9c74f" := by
  refine ⟨?_, ?_, ?_, ?_, ?_⟩
  · intro p a
    refine ⟨rfl, rfl, rfl, ?_⟩
    rcases le_total a p with h | h
    · have h1 : a - p ≤ 0 := by linarith
      have h2 : 0 ≤ p - a := by linarith
      simp [chartOnTarget, chartOverrun, chartUnderrun, max_eq_left h1, max_eq_right h2,
        abs_of_nonpos h1]
    · have h1 : 0 ≤ a - p := by linarith
      have h2 : p - a ≤ 0 := by linarith
      simp [chartOnTarget, chartOverrun, chartUnderrun, max_eq_right h1, max_eq_left h2,
        abs_of_nonneg h1]
  · intro x
    unfold tierOf
    by_cases h80 : 80 < x
    · have h60 : ¬x < 60 := by linarith
      simp [h80, h60, not_le.mpr h80]
    · by_cases h60 : x < 60
      · have : ¬60 ≤ x := not_le.mpr h60
        simp [h80, h60, this]
      · simp [h80, h60, le_of_not_lt h60, le_of_not_lt h80]
  · norm_num [create_enhanced_efficiency_chart, chartOnTarget, chartOverrun, chartUnderrun]
  · norm_num [create_enhanced_efficiency_chart, centerLabelVal, onTargetPct, chartOnTarget,
      chartOverrun, chartUnderrun, round1, rhe]
  · norm_num [create_enhanced_efficiency_chart, tierOf, onTargetPct, chartOnTarget,
      chartOverrun, chartUnderrun]

/-- C10 (confirmed): with `total_planned = 0` the guard of the donut takes the
else branch, so for every `total_actual` all three percentages are 0 and the
center label reads 0.0%; no division is ever evaluated on that path. -/
theorem claim10_donut_zero_planned :
    ∀ a : ℚ,
      onTargetPct 0 a = 0 ∧ donutOverrunPct 0 a = 0 ∧ donutUnderrunPct 0 a = 0 ∧
      (create_enhanced_efficiency_chart 0 a).pcts = [0, 0, 0] ∧
      (create_enhanced_efficiency_chart 0 a).centerLabel = 0 := by
  intro a
  have h1 : onTargetPct 0 a = 0 := by simp [onTargetPct]
  have h2 : donutOverrunPct 0 a = 0 := by simp [donutOverrunPct]
  have h3 : donutUnderrunPct 0 a = 0 := by simp [donutUnderrunPct]
  refine ⟨h1, h2, h3, ?_, ?_⟩
  · simp [create_enhanced_efficiency_chart, h1, h2, h3]
  · simp only [create_enhanced_efficiency_chart, centerLabelVal, h1]
    norm_num [round1, rhe]

/-- C2 counterexample: on the section-8.6 example input the cost series of
the yearly chart is [19900, 0], not [19900, -9950]: the 2023 overrun of -50 is
floored to 0 by the cleaning loop before the burden rate is applied. -/
theorem claim2_counterexample :
    yearlyCostOf (create_yearly_trends_chart exYearlyDF) = [19900, 0] ∧
    yearlyCostOf (create_yearly_trends_chart exYearlyDF) ≠ [19900, -9950] := by
  rw [exYearly_eval]
  constructor
  · rfl
  · simp [yearlyCostOf, exYearlyData]

/-- C2 (amended): the yearly chart floors `overrun_hours` at 0 together with
the other hour columns, so the secondary cost series is
`max(0, overrun_hours) * 199` and is never negative; on the example rows
(2022, overrun 100) and (2023, overrun -50) with burden rate 199 the series
is [19900, 0]. -/
theorem claim2_overrun_cost_clamped :
    (∀ (df : YearlyDF) (d : YearlyChartData),
        create_yearly_trends_chart df = Except.ok (YearlyChart.chart d) →
          d.cost = d.overrun.map (fun x => x * 199) ∧ ∀ c ∈ d.cost, 0 ≤ c) ∧
    yearlyCostOf (create_yearly_trends_chart exYearlyDF) = [19900, 0] := by
  constructor
  · intro df d h
    exact ⟨(yearly_chart_branch df d h).1, (yearly_chart_branch df d h).2.1⟩
  · rw [exYearly_eval]; rfl

/-- C2 witness: the amended C2 instantiated at the example input. -/
theorem claim2_witness :
    create_yearly_trends_chart exYearlyDF = Except.ok (YearlyChart.chart exYearlyData) ∧
    exYearlyData.cost = exYearlyData.overrun.map (fun x => x * 199) :=
  ⟨exYearly_eval, (claim2_overrun_cost_clamped.1 exYearlyDF exYearlyData exYearly_eval).1⟩

/-- C9 counterexample: on the section-8.6 example input the primary axis
range is [0, 1440] (1.2 times the 2023 planned value 1200, the largest
planned-or-actual value), not the [0, 1380] the claim states. -/
theorem claim9_counterexample :
    yearlyPrimaryOf (create_yearly_trends_chart exYearlyDF) = (0, 1440) ∧
    yearlyPrimaryOf (create_yearly_trends_chart exYearlyDF) ≠ ((0 : ℚ), (1380 : ℚ)) := by
  rw [exYearly_eval]
  constructor
  · rfl
  · simp [yearlyPrimaryOf, exYearlyData]

/-- C9 (amended): for every non-empty input with the required columns, the
primary axis range is [0, 1.2 x the largest clamped planned-or-actual value]
— [0, 1440] on the section-8.6 example — and the secondary axis spans
[0, 1.2 x the largest absolute cost]; its lower bound would extend below
zero only for a negative cost, which the clamping rules out. -/
theorem claim9_axis_ranges :
    (∀ (df : YearlyDF) (d : YearlyChartData),
        create_yearly_trends_chart df = Except.ok (YearlyChart.chart d) →
          d.primaryRange = (0, max (qmax d.planned) (qmax d.actual) * (6/5)) ∧
          d.secondaryRange = (0, max |qmax d.cost| |qmin d.cost| * (6/5))) ∧
    yearlyPrimaryOf (create_yearly_trends_chart exYearlyDF) = (0, 1440) ∧
    yearlySecondaryOf (create_yearly_trends_chart exYearlyDF) = (0, 23880) := by
  refine ⟨?_, ?_, ?_⟩
  · intro df d h
    exact ⟨(yearly_chart_branch df d h).2.2.1, (yearly_chart_branch df d h).2.2.2⟩
  · rw [exYearly_eval]; rfl
  · rw [exYearly_eval]; rfl

/-- C9 witness: the amended C9 instantiated at the example input. -/
theorem claim9_witness :
    create_yearly_trends_chart exYearlyDF = Except.ok (YearlyChart.chart exYearlyData) ∧
    exYearlyData.primaryRange =
      (0, max (qmax exYearlyData.planned) (qmax exYearlyData.actual) * (6/5)) :=
  ⟨exYearly_eval, (claim9_axis_ranges.1 exYearlyDF exYearlyData exYearly_eval).1⟩

/-- C5 counterexample: a non-empty yearly frame carrying the three
guard-checked columns but no `overrun_hours` column makes the yearly builder
raise a KeyError instead of returning a placeholder, refuting the claimed
never-raises rule for schema-incomplete input. -/
theorem claim5_counterexample :
    create_yearly_trends_chart exMissingOverrunDF = Except.error "KeyError: overrun_hours" := rfl

/-- C5 (amended): the yearly, customer-profit and work-center builders
return their fixed "No ... data available" placeholder of height 400 on an
empty input and never raise there, and the yearly builder also returns the
placeholder whenever a guard-checked column is missing; the two raising
paths the code contains are kept: the yearly builder raises a KeyError when
only `overrun_hours` is missing from a non-empty input, and the simplified
customer builder returns the placeholder only for an empty list argument —
a DataFrame argument, empty included, raises a ValueError at the truthiness
guard although the docstring advertises it as an accepted input. -/
theorem claim5_empty_input_placeholders :
    (∀ df : YearlyDF, df.rows = [] →
        create_yearly_trends_chart df =
          Except.ok (YearlyChart.placeholder "No yearly data available" 400)) ∧
    (∀ df : YearlyDF, (df.hasYear && df.hasPlanned && df.hasActual) = false →
        create_yearly_trends_chart df =
          Except.ok (YearlyChart.placeholder "No yearly data available" 400)) ∧
    (∀ df : CPDF, df.rows = [] →
        create_customer_profit_chart df = CPChart.placeholder "No customer data available" 400) ∧
    (∀ df : WCDF, df.rows = [] →
        create_workcenter_chart df = WCChart.placeholder "No work center data available" 400) ∧
    (∀ (df : CustDF) (yf : Option Int) (sk : CustSortKey) (m : Nat), df.rows = [] →
        create_simplified_customer_chart (CustData.ofList df) yf sk m =
          Except.ok (CustChart.placeholder "No customer data available" 400)) ∧
    (∀ (df : CustDF) (yf : Option Int) (sk : CustSortKey) (m : Nat),
        create_simplified_customer_chart (CustData.ofFrame df) yf sk m =
          Except.error "ValueError: The truth value of a DataFrame is ambiguous") ∧
    (∀ (df : WCDF) (sk : RoiSortKey), df.rows = [] →
        create_workcenter_roi_chart df sk =
          RoiChart.placeholder "No work center data available" 400) ∧
    (∀ df : YearlyDF, df.rows ≠ [] → df.hasYear = true → df.hasPlanned = true →
        df.hasActual = true → df.hasOverrun = false →
        create_yearly_trends_chart df = Except.error "KeyError: overrun_hours") := by
  refine ⟨?_, ?_, ?_, ?_, ?_, ?_, ?_, ?_⟩
  · intro df h; simp [create_yearly_trends_chart, h]
  · intro df h; simp [create_yearly_trends_chart, h]
  · intro df h; simp [create_customer_profit_chart, h]
  · intro df h; simp [create_workcenter_chart, h]
  · intro df yf sk m h; simp [create_simplified_customer_chart, custListChart, h]
  · intro df yf sk m; rfl
  · intro df sk h; simp [create_workcenter_roi_chart, h]
  · intro df h hy hp ha ho
    have hrows : df.rows.isEmpty = false := by
      cases hr : df.rows with
      | nil => exact absurd hr h
      | cons a t => rfl
    simp [create_yearly_trends_chart, hrows, hy, hp, ha, ho]

/-- C5 witness: the amended C5 instantiated at concrete empty frames, at a
concrete empty DataFrame argument, and at the concrete frame missing only
`overrun_hours`. -/
theorem claim5_witness :
    create_yearly_trends_chart emptyYearlyDF =
      Except.ok (YearlyChart.placeholder "No yearly data available" 400) ∧
    create_customer_profit_chart emptyCPDF =
      CPChart.placeholder "No customer data available" 400 ∧
    create_workcenter_chart emptyWCDF =
      WCChart.placeholder "No work center data available" 400 ∧
    create_simplified_customer_chart (CustData.ofList emptyCustDF) none CustSortKey.efficiency =
      Except.ok (CustChart.placeholder "No customer data available" 400) ∧
    create_simplified_customer_chart (CustData.ofFrame emptyCustDF) none CustSortKey.efficiency =
      Except.error "ValueError: The truth value of a DataFrame is ambiguous" ∧
    create_workcenter_roi_chart emptyWCDF RoiSortKey.overrun_percent =
      RoiChart.placeholder "No work center data available" 400 ∧
    create_yearly_trends_chart exMissingOverrunDF = Except.error "KeyError: overrun_hours" :=
  ⟨claim5_empty_input_placeholders.1 emptyYearlyDF rfl,
   claim5_empty_input_placeholders.2.2.1 emptyCPDF rfl,
   claim5_empty_input_placeholders.2.2.2.1 emptyWCDF rfl,
   claim5_empty_input_placeholders.2.2.2.2.1 emptyCustDF none CustSortKey.efficiency 8 rfl,
   claim5_empty_input_placeholders.2.2.2.2.2.1 emptyCustDF none CustSortKey.efficiency 8,
   claim5_empty_input_placeholders.2.2.2.2.2.2.1 emptyWCDF RoiSortKey.overrun_percent rfl,
   claim5_empty_input_placeholders.2.2.2.2.2.2.2 exMissingOverrunDF
     (by simp [exMissingOverrunDF]) rfl rfl rfl rfl⟩

/-- C6 counterexample: calling the customer chart on 15 rows without passing
`max_customers` returns 8 entries, not 10: the parameter defaults to 8. -/
theorem claim6_counterexample :
    custChartSize
        (create_simplified_customer_chart (CustData.ofList cust15DF) none CustSortKey.efficiency) =
      8 ∧
    (8 : Nat) ≠ 10 := by
  constructor
  · decide
  · decide

/-- C6 (amended): `max_customers` defaults to 8, not 10; whenever the
year-filtered rows are non-empty the chart holds exactly
`min(filtered row count, max_customers)` entries — the top rows by the
chosen sort key — so an explicit `max_customers = 10` on 15 input rows
returns exactly 10 entries. -/
theorem claim6_truncation :
    (∀ (df : CustDF) (yf : Option Int) (sk : CustSortKey) (m : Nat),
        yearFiltered df yf ≠ [] →
          custChartSize (create_simplified_customer_chart (CustData.ofList df) yf sk m) =
            min (yearFiltered df yf).length m) ∧
    (∀ (data : CustData) (yf : Option Int) (sk : CustSortKey),
        create_simplified_customer_chart data yf sk =
          create_simplified_customer_chart data yf sk 8) ∧
    custChartSize
        (create_simplified_customer_chart (CustData.ofList cust15DF) none
          CustSortKey.efficiency 10) =
      10 := by
  have p1 : ∀ (df : CustDF) (yf : Option Int) (sk : CustSortKey) (m : Nat),
      yearFiltered df yf ≠ [] →
        custChartSize (create_simplified_customer_chart (CustData.ofList df) yf sk m) =
          min (yearFiltered df yf).length m := by
    intro df yf sk m h
    have hrowsne : df.rows ≠ [] := by
      intro hr
      apply h
      cases yf with
      | none => simpa [yearFiltered] using hr
      | some y => by_cases hy : df.hasYear <;> simp [yearFiltered, hr, hy]
    have hrows : df.rows.isEmpty = false := by
      cases hr : df.rows with
      | nil => exact absurd hr hrowsne
      | cons a t => rfl
    have h1 : (yearFiltered df yf).isEmpty = false := by
      cases he : yearFiltered df yf with
      | nil => exact absurd he h
      | cons a t => rfl
    have hl : (custSortedRows df sk (custDerivedRows df (yearFiltered df yf))).length =
        (yearFiltered df yf).length := by
      rw [custSortedRows_length, custDerivedRows_length]
    simp only [create_simplified_customer_chart, custListChart, hrows, h1,
      Bool.false_eq_true, if_false]
    by_cases hm : m < (custSortedRows df sk (custDerivedRows df (yearFiltered df yf))).length
    · rw [if_pos hm]
      simp only [custChartSize, List.length_take]
      rw [hl] at hm ⊢
      omega
    · rw [if_neg hm]
      simp only [custChartSize]
      rw [hl] at hm ⊢
      omega
  refine ⟨p1, fun data yf sk => rfl, ?_⟩
  have h15 : yearFiltered cust15DF none ≠ [] := by simp [yearFiltered, cust15DF]
  rw [p1 cust15DF none CustSortKey.efficiency 10 h15]
  simp [yearFiltered, cust15DF]

/-- C6 witness: the amended C6 instantiated at the 15-row frame with an
explicit `max_customers = 10`. -/
theorem claim6_witness :
    yearFiltered cust15DF none ≠ [] ∧
    custChartSize
        (create_simplified_customer_chart (CustData.ofList cust15DF) none
          CustSortKey.planned_hours 10) =
      min (yearFiltered cust15DF none).length 10 := by
  have h15 : yearFiltered cust15DF none ≠ [] := by simp [yearFiltered, cust15DF]
  exact ⟨h15, claim6_truncation.1 cust15DF none CustSortKey.planned_hours 10 h15⟩

/-- C8 (confirmed): every overrun-percent bar of the work-center ROI chart is
colored by the three-tier policy — green iff the value is at most 0, orange
iff strictly between 0 and 15, red iff at least 15 — with -5 green, 10
orange, 20 red; and the color list of the chart is exactly the policy mapped over
its overrun-percent values. -/
theorem claim8_roi_bar_colors :
    (∀ x : ℚ,
        (roiBarColor x = "#22c55e" ↔ x ≤ 0) ∧
        (roiBarColor x = "#f97316" ↔ 0 < x ∧ x < 15) ∧
        (roiBarColor x = "#dc2626" ↔ 15 ≤ x)) ∧
    roiBarColor (-5) = "#22c55e" ∧
    roiBarColor 10 = "#f97316" ∧
    roiBarColor 20 = "#dc2626" ∧
    (∀ (df : WCDF) (sk : RoiSortKey),
        roiColorsOf (create_workcenter_roi_chart df sk) =
          (roiPercentsOf (create_workcenter_roi_chart df sk)).map roiBarColor) := by
  refine ⟨?_, by norm_num [roiBarColor], by norm_num [roiBarColor], by norm_num [roiBarColor], ?_⟩
  · intro x
    unfold roiBarColor
    by_cases h0 : x ≤ 0
    · have h15 : x < 15 := by linarith
      have : ¬(15:ℚ) ≤ x := by linarith
      simp [h0, h15, this]
    · by_cases h15 : x < 15
      · have : ¬(15:ℚ) ≤ x := not_le.mpr h15
        simp [h0, h15, this, lt_of_not_le h0]
      · simp [h0, h15, le_of_not_lt h15]
  · intro df sk
    unfold create_workcenter_roi_chart
    split
    · rfl
    · split
      · cases sk <;> simp [roiColorsOf, roiPercentsOf, List.map_map]
      · cases sk <;> simp [roiColorsOf, roiPercentsOf]

end WH3
